import Mathlib

set_option autoImplicit false

namespace Qckm

/-
Shallow embedding of the qckm tray applet, from the two Go source variants:
src/unnamed/part_000 (the richer variant, with duration formatting and a
remove-then-add rebuild) and src/main.go (the variant with ten fixed slots).
Line numbers in the doc comments refer to those files.
-/

/-- Go struct Activity: the JSON activity object, name only. -/
structure Activity where
  Name : String
deriving DecidableEq, Repr

/-- Go struct Project: the JSON project object, name only. -/
structure Project where
  Name : String
deriving DecidableEq, Repr

/-- Go struct Task (part_000 lines 53-58): id, activity, project and the
begin timestamp string (the StartTime field exists only in part_000). -/
structure Task where
  Id : Int
  activity : Activity
  project : Project
  StartTime : String
deriving DecidableEq, Repr

/-- The Go zero value of Task, written by GetMenuState as `*new(Task)` to
mark an absent active task. -/
def zeroTask : Task := ⟨0, ⟨""⟩, ⟨""⟩, ""⟩

/-- Task.TextOutput (part_000 lines 60-63):
fmt.Sprintf with the project name in brackets then the activity name. -/
def Task.TextOutput (t : Task) : String :=
  "[" ++ t.project.Name ++ "] " ++ t.activity.Name

/-- Numeric value of a decimal digit character; none for any other char. -/
def digitVal (c : Char) : Option Nat :=
  if 48 ≤ c.toNat ∧ c.toNat ≤ 57 then some (c.toNat - 48) else none

/-- Two decimal digits, most significant first. -/
def digit2 (a b : Char) : Option Nat := do
  let x ← digitVal a
  let y ← digitVal b
  pure (10 * x + y)

/-- Four decimal digits, most significant first. -/
def digit4 (a b c d : Char) : Option Nat := do
  let x ← digit2 a b
  let y ← digit2 c d
  pure (100 * x + y)

/-- Gregorian leap year rule, as Go's time package applies it. -/
def isLeapYear (y : Nat) : Bool :=
  y % 4 == 0 && (y % 100 != 0 || y % 400 == 0)

/-- Length of a month, as Go's time.Parse validates the day field. -/
def daysInMonth (y mo : Nat) : Nat :=
  match mo with
  | 1 => 31
  | 2 => if isLeapYear y then 29 else 28
  | 3 => 31
  | 4 => 30
  | 5 => 31
  | 6 => 30
  | 7 => 31
  | 8 => 31
  | 9 => 30
  | 10 => 31
  | 11 => 30
  | 12 => 31
  | _ => 0

/-- Days since 1970-01-01 of a civil date (the standard days-from-civil
formula, floor divisions). -/
def daysFromCivil (y mo d : Nat) : Int :=
  let yi : Int := if mo ≤ 2 then (y : Int) - 1 else (y : Int)
  let era : Int := Int.fdiv yi 400
  let yoe : Int := yi - era * 400
  let mp : Int := if mo ≤ 2 then (mo : Int) + 9 else (mo : Int) - 3
  let doy : Int := Int.fdiv (153 * mp + 2) 5 + (d : Int) - 1
  let doe : Int := yoe * 365 + Int.fdiv yoe 4 - Int.fdiv yoe 100 + doy
  era * 146097 + doe - 719468

/-- Seconds since the Unix epoch of a UTC civil date-time. -/
def utcEpochSecs (y mo d hh mi ss : Nat) : Int :=
  86400 * daysFromCivil y mo d + 3600 * (hh : Int) + 60 * (mi : Int) + (ss : Int)

/-- Go's zero time.Time as an instant: January 1, year 1, 00:00:00 UTC. -/
def goZeroTime : Int := utcEpochSecs 1 1 1 0 0 0

/-- time.Parse with the time.RFC3339 layout on its fixed shape
YYYY-MM-DDTHH:MM:SS(+|-)HH:MM, producing the denoted instant in seconds
since the Unix epoch (the offset is subtracted from or added to the wall
clock reading as the sign directs). -/
def rfc3339Parse (s : String) : Option Int :=
  match s.data with
  | [y1, y2, y3, y4, sep1, m1, m2, sep2, d1, d2, sepT, h1, h2, sep3,
      n1, n2, sep4, s1, s2, sg, o1, o2, sep5, o3, o4] =>
    if sep1 = '-' ∧ sep2 = '-' ∧ sepT = 'T' ∧ sep3 = ':' ∧ sep4 = ':' ∧ sep5 = ':' then
      match digit4 y1 y2 y3 y4, digit2 m1 m2, digit2 d1 d2, digit2 h1 h2,
          digit2 n1 n2, digit2 s1 s2, digit2 o1 o2, digit2 o3 o4 with
      | some y, some mo, some d, some hh, some mi, some ss, some oh, some om =>
        if 1 ≤ mo ∧ mo ≤ 12 ∧ 1 ≤ d ∧ d ≤ daysInMonth y mo ∧ hh ≤ 23 ∧
            mi ≤ 59 ∧ ss ≤ 59 ∧ oh ≤ 23 ∧ om ≤ 59 then
          if sg = '+' then
            some (utcEpochSecs y mo d hh mi ss - (3600 * (oh : Int) + 60 * (om : Int)))
          else if sg = '-' then
            some (utcEpochSecs y mo d hh mi ss + (3600 * (oh : Int) + 60 * (om : Int)))
          else none
        else none
      | _, _, _, _, _, _, _, _ => none
    else none
  | _ => none

/-- The character loop of Task.TaskDuration (part_000 lines 67-74): copy the
start string, appending one colon right after the character at index len-3.
The Go loop compares the index against len(activeTask.StartTime)-3; at the
method's sole call site the receiver is that very global, so the two lengths
coincide and the model uses the receiver's own length.  The Go comparison is
int arithmetic, so for len < 3 the negative target is never hit; the Nat
condition idx + 3 = total captures exactly that. -/
def normalizeOffsetChars (total : Nat) : Nat → List Char → List Char
  | _, [] => []
  | idx, c :: rest =>
      if idx + 3 = total then
        c :: ':' :: normalizeOffsetChars total (idx + 1) rest
      else
        c :: normalizeOffsetChars total (idx + 1) rest

/-- The largest time.Duration, 2^63 - 1 nanoseconds; time.Time.Sub (hence
time.Since) saturates at it. -/
def maxDurationNs : Int := 9223372036854775807

/-- The smallest time.Duration, -2^63 nanoseconds. -/
def minDurationNs : Int := -9223372036854775808

/-- Task.TaskDuration (part_000 lines 65-82) on a start string, with now
passed explicitly in seconds since the Unix epoch.  The parse error is
discarded exactly as in the source, so an unparseable string leaves the Go
zero time, and time.Since then saturates at the maximal time.Duration.
duration.Seconds() and the two int conversions are modelled in exact
arithmetic over whole-second instants, with Go's toward-zero division. -/
def TaskDurationOf (startTime : String) (now : Int) : String :=
  let timeString : String := ⟨normalizeOffsetChars startTime.data.length 0 startTime.data⟩
  let taskTime : Int := (rfc3339Parse timeString).getD goZeroTime
  let rawNs : Int := (now - taskTime) * 1000000000
  let ns : Int :=
    if maxDurationNs < rawNs then maxDurationNs
    else if rawNs < minDurationNs then minDurationNs
    else rawNs
  let hours : Int := Int.tdiv ns 3600000000000
  let minutes : Int := Int.tmod (Int.tdiv ns 60000000000) 60
  toString hours ++ ":" ++ toString minutes ++ " h"

/-- Task.TaskDuration as the method the menu code calls. -/
def Task.TaskDuration (t : Task) (now : Int) : String :=
  TaskDurationOf t.StartTime now

/-- One decimal digit character (claim-side rendering of timestamps). -/
def digitChar (n : Nat) : Char :=
  match n with
  | 0 => '0'
  | 1 => '1'
  | 2 => '2'
  | 3 => '3'
  | 4 => '4'
  | 5 => '5'
  | 6 => '6'
  | 7 => '7'
  | 8 => '8'
  | _ => '9'

/-- Two-digit zero-padded rendering. -/
def pad2 (n : Nat) : List Char := [digitChar (n / 10), digitChar (n % 10)]

/-- Four-digit zero-padded rendering. -/
def pad4 (n : Nat) : List Char :=
  [digitChar (n / 1000), digitChar (n / 100 % 10), digitChar (n / 10 % 10), digitChar (n % 10)]

/-- A well-formed start instant whose UTC-offset suffix lacks the colon:
YYYY-MM-DDTHH:MM:SS(+|-)HHMM with zero-padded fields. -/
def renderNoColon (y mo d hh mi ss : Nat) (plusSign : Bool) (oh om : Nat) : String :=
  ⟨pad4 y ++ '-' :: pad2 mo ++ '-' :: pad2 d ++ 'T' :: pad2 hh ++ ':' :: pad2 mi ++
    ':' :: pad2 ss ++ (if plusSign then '+' else '-') :: (pad2 oh ++ pad2 om)⟩

/-- The instant such a start string denotes, in seconds since the Unix
epoch. -/
def renderedInstant (y mo d hh mi ss : Nat) (plusSign : Bool) (oh om : Nat) : Int :=
  if plusSign then utcEpochSecs y mo d hh mi ss - (3600 * (oh : Int) + 60 * (om : Int))
  else utcEpochSecs y mo d hh mi ss + (3600 * (oh : Int) + 60 * (om : Int))

/-- Failure modes of the remote client at the points this core observes
them: transport errors from client.Do, body read errors, JSON decode
errors, and the NoActiveTaskErrror value FetchActive returns on an empty
array. -/
inductive GoErr where
  | transport
  | readBody
  | decode
  | noActiveTask
deriving DecidableEq, Repr

/-- Go struct Config: url, user and token from the YAML file. -/
structure Config where
  URL : String
  Username : String
  Token : String
deriving DecidableEq, Repr

/-- The parts of an http.Request this core sets. -/
structure HttpRequest where
  method : String
  url : String
  authUser : String
  authToken : String
deriving DecidableEq, Repr

/-- The parts of an http.Response this core could read. -/
structure HttpResponse where
  StatusCode : Nat
  body : String
deriving DecidableEq, Repr

/-- BuildRequest (part_000 lines 185-197): method, base url plus endpoint,
and the two static credential headers. -/
def BuildRequest (cfg : Config) (method endpoint : String) : HttpRequest :=
  ⟨method, cfg.URL ++ endpoint, cfg.Username, cfg.Token⟩

/-- StopTask (part_000 lines 199-214): PATCH id/stop through the given
transport; returns the transport error, or nil whatever the response was
(res.StatusCode is never examined). -/
def StopTask (cfg : Config) (id : Int)
    (doReq : HttpRequest → Except GoErr HttpResponse) : Option GoErr :=
  match doReq (BuildRequest cfg "PATCH" (toString id ++ "/stop")) with
  | .error e => some e
  | .ok _ => none

/-- RestartTask (part_000 lines 216-229): PATCH id/restart, same shape as
StopTask, status code never examined. -/
def RestartTask (cfg : Config) (id : Int)
    (doReq : HttpRequest → Except GoErr HttpResponse) : Option GoErr :=
  match doReq (BuildRequest cfg "PATCH" (toString id ++ "/restart")) with
  | .error e => some e
  | .ok _ => none

/-- The decision tail of FetchActive (part_000 lines 259-270), taking the
already transported and decoded body: an empty array is the
NoActiveTaskErrror outcome, otherwise the first element is the active
task. -/
def FetchActive (decoded : Except GoErr (List Task)) : Except GoErr Task :=
  match decoded with
  | .error e => .error e
  | .ok [] => .error .noActiveTask
  | .ok (t :: _) => .ok t

/-- The two package-level variables GetMenuState writes. -/
structure AppState where
  recentTasks : List Task
  activeTask : Task
deriving DecidableEq, Repr

/-- GetMenuState (part_000 lines 171-183, textually identical in main.go
lines 160-172): assign the fetched recent list only when FetchRecent
returned nil error, keeping the previous list otherwise; then assign
activeTask from FetchActive, resetting it to the zero Task on any
FetchActive error (the NoActiveTaskErrror case included). -/
def GetMenuState (st : AppState) (recentRes : Except GoErr (List Task))
    (activeRes : Except GoErr Task) : AppState :=
  let st1 : AppState :=
    match recentRes with
    | .ok recent => { st with recentTasks := recent }
    | .error _ => st
  match activeRes with
  | .ok active => { st1 with activeTask := active }
  | .error _ => { st1 with activeTask := zeroTask }

/-- One rendered recent entry: its title, the index its click goroutine
captured, and the rebuild generation that created it (the generation tag is
the instrumentation needed to speak about listeners of distinct rebuilds;
the source closure captures exactly the index). -/
structure MenuEntry where
  label : String
  boundIdx : Nat
  gen : Nat
deriving DecidableEq, Repr

/-- The for-range loop of SetupMenu (part_000 lines 131-148): one sub menu
item per recent task, titled task.TextOutput(), whose click goroutine
captures the running index (the stray i++ inside the range body is
overwritten by range on the next iteration and happens after the goroutine
argument is evaluated, so it has no observable effect). -/
def buildRecentEntries (gen : Nat) : Nat → List Task → List MenuEntry
  | _, [] => []
  | i, t :: rest => ⟨t.TextOutput, i, gen⟩ :: buildRecentEntries gen (i + 1) rest

/-- The tray menu as far as SetupMenu shapes it: the recent sub items, the
active group's enabled flag and sub item titles, and a rebuild generation
counter tagging which rebuild installed which click bindings. -/
structure TrayMenu where
  recentEntries : List MenuEntry
  activeEnabled : Bool
  activeLabels : List String
  gen : Nat
deriving DecidableEq, Repr

/-- SetupMenu (part_000 lines 126-169): run GetMenuState, remove every sub
menu item of the Recent and Active groups (retiring their click bindings),
then install fresh entries from the new state; the active group is disabled
when activeTask.Id <= 0 and otherwise shows the task label with its
duration plus a Stop item. -/
def SetupMenu (m : TrayMenu) (st : AppState) (recentRes : Except GoErr (List Task))
    (activeRes : Except GoErr Task) (now : Int) : TrayMenu × AppState :=
  let st1 := GetMenuState st recentRes activeRes
  let gen1 := m.gen + 1
  let recents := buildRecentEntries gen1 0 st1.recentTasks
  if st1.activeTask.Id ≤ 0 then
    (⟨recents, false, [], gen1⟩, st1)
  else
    (⟨recents, true,
      [st1.activeTask.TextOutput ++ " (" ++ st1.activeTask.TaskDuration now ++ ")", "Stop"],
      gen1⟩, st1)

/-- The recent entry click goroutine of part_000 (lines 133-145): read the
task at the captured index out of the CURRENT recentTasks (a Go panic when
the index is out of range, modelled as none), PATCH restart, and on a nil
error run SetupMenu once more.  Returns the dispatched id and how many
Synchronize+Rebuild pairs (SetupMenu calls) the click triggered. -/
def RecentClickHandler (st : AppState) (e : MenuEntry) (cfg : Config)
    (doReq : HttpRequest → Except GoErr HttpResponse) : Option Int × Nat :=
  match st.recentTasks[e.boundIdx]? with
  | none => (none, 0)
  | some t =>
    match RestartTask cfg t.Id doReq with
    | none => (some t.Id, 1)
    | some _ => (some t.Id, 0)

/-- The Stop click goroutine of part_000 (lines 157-167): StopTask on the
current global activeTask, resynchronizing once on a nil error. -/
def StopClickHandler (st : AppState) (cfg : Config)
    (doReq : HttpRequest → Except GoErr HttpResponse) : Int × Nat :=
  match StopTask cfg st.activeTask.Id doReq with
  | none => (st.activeTask.Id, 1)
  | some _ => (st.activeTask.Id, 0)

namespace MainGo

/-- The title loop of main.go's SetupMenu (lines 144-150): ten unconditional
reads of recentTasks[0..9]; fewer than ten recents is an index out of range
panic, modelled as none. -/
def SetTitles (tasks : List Task) : Option (List String) :=
  (List.range 10).mapM (fun i => (tasks[i]?).map Task.TextOutput)

/-- The recent entry click goroutine of main.go (lines 96-105): read the
task at the captured index from the current recentTasks and call
RestartTask, discarding its result; no resynchronization is ever
triggered. -/
def RecentClickHandler (st : AppState) (e : MenuEntry) (cfg : Config)
    (doReq : HttpRequest → Except GoErr HttpResponse) : Option Int × Nat :=
  match st.recentTasks[e.boundIdx]? with
  | none => (none, 0)
  | some t =>
    match RestartTask cfg t.Id doReq with
    | none => (some t.Id, 0)
    | some _ => (some t.Id, 0)

/-- The Stop goroutine of main.go (lines 113-120): StopTask on the global
activeTask, result discarded, no resynchronization. -/
def StopClickHandler (st : AppState) (cfg : Config)
    (doReq : HttpRequest → Except GoErr HttpResponse) : Int × Nat :=
  match StopTask cfg st.activeTask.Id doReq with
  | none => (st.activeTask.Id, 0)
  | some _ => (st.activeTask.Id, 0)

end MainGo

/-- A sample configuration for concrete runs. -/
def cfg0 : Config := ⟨"https://kimai.example/", "user", "token"⟩

/-- Sample task with id 1. -/
def taskA : Task := ⟨1, ⟨"deploy"⟩, ⟨"alpha"⟩, ""⟩

/-- Sample task with id 2. -/
def taskB : Task := ⟨2, ⟨"design"⟩, ⟨"beta"⟩, ""⟩

/-- A genuine task whose remote id happens to be 0. -/
def taskZeroId : Task := ⟨0, ⟨"audit"⟩, ⟨"gamma"⟩, ""⟩

/-- A tray menu holding one entry left over from generation 0. -/
def menu0 : TrayMenu := ⟨[⟨"[old] stale", 0, 0⟩], false, [], 0⟩

/-- The initial application state: nil recent list, zero active task. -/
def state0 : AppState := ⟨[], zeroTask⟩

/-- The coloned form the normalization loop produces from renderNoColon. -/
def renderColoned (y mo d hh mi ss : Nat) (plusSign : Bool) (oh om : Nat) : List Char :=
  pad4 y ++ '-' :: pad2 mo ++ '-' :: pad2 d ++ 'T' :: pad2 hh ++ ':' :: pad2 mi ++
    ':' :: pad2 ss ++ (if plusSign then '+' else '-') :: (pad2 oh ++ ':' :: pad2 om)

/-- Every entry the rebuild loop installs carries the generation it was
built for. -/
theorem mem_buildRecentEntries_gen (gen : Nat) :
    ∀ (ts : List Task) (i : Nat) (e : MenuEntry),
      e ∈ buildRecentEntries gen i ts → e.gen = gen
  | [], _, _, h => by simp [buildRecentEntries] at h
  | t :: rest, i, e, h => by
      simp only [buildRecentEntries, List.mem_cons] at h
      rcases h with h | h
      · subst h; rfl
      · exact mem_buildRecentEntries_gen gen rest (i + 1) e h

/-- Truncated division is untouched by a common positive factor. -/
theorem tdiv_mul_right_cancel (a : Int) (b c : Nat) (hc : 0 < c) :
    (a * (c : Int)).tdiv ((b : Int) * (c : Int)) = a.tdiv (b : Int) := by
  obtain ⟨n, rfl | rfl⟩ := a.eq_nat_or_neg
  · rw [show ((n : Int) * (c : Int)) = ((n * c : Nat) : Int) by push_cast; ring,
      show ((b : Int) * (c : Int)) = ((b * c : Nat) : Int) by push_cast; ring,
      ← Int.ofNat_tdiv, ← Int.ofNat_tdiv, Nat.mul_div_mul_right _ _ hc]
  · rw [Int.neg_mul, Int.neg_tdiv, Int.neg_tdiv,
      show ((n : Int) * (c : Int)) = ((n * c : Nat) : Int) by push_cast; ring,
      show ((b : Int) * (c : Int)) = ((b * c : Nat) : Int) by push_cast; ring,
      ← Int.ofNat_tdiv, ← Int.ofNat_tdiv, Nat.mul_div_mul_right _ _ hc]

/-- Hours step: nanoseconds by an hour of nanoseconds is seconds by 3600. -/
theorem tdiv_ns_hour (a : Int) :
    Int.tdiv (a * 1000000000) 3600000000000 = Int.tdiv a 3600 := by
  have h := tdiv_mul_right_cancel a 3600 1000000000 (by norm_num)
  push_cast at h
  exact h

/-- Minutes step: nanoseconds by a minute of nanoseconds is seconds by 60. -/
theorem tdiv_ns_minute (a : Int) :
    Int.tdiv (a * 1000000000) 60000000000 = Int.tdiv a 60 := by
  have h := tdiv_mul_right_cancel a 60 1000000000 (by norm_num)
  push_cast at h
  exact h

/-- The decimal digit of a rendered digit char. -/
theorem digitVal_digitChar (n : Nat) (h : n ≤ 9) : digitVal (digitChar n) = some n := by
  interval_cases n <;> rfl

/-- Reading back a zero-padded two-digit rendering. -/
theorem digit2_pad2 (n : Nat) (h : n ≤ 99) :
    digit2 (digitChar (n / 10)) (digitChar (n % 10)) = some n := by
  have h1 : n / 10 ≤ 9 := by omega
  have h2 : n % 10 ≤ 9 := by omega
  simp [digit2, digitVal_digitChar _ h1, digitVal_digitChar _ h2]
  omega

/-- Reading back a zero-padded four-digit rendering. -/
theorem digit4_pad4 (n : Nat) (h : n ≤ 9999) :
    digit4 (digitChar (n / 1000)) (digitChar (n / 100 % 10))
      (digitChar (n / 10 % 10)) (digitChar (n % 10)) = some n := by
  have e1 : digit2 (digitChar (n / 1000)) (digitChar (n / 100 % 10)) = some (n / 100) := by
    have h1 : n / 1000 = n / 100 / 10 := by omega
    rw [h1]
    exact digit2_pad2 (n / 100) (by omega)
  have e2 : digit2 (digitChar (n / 10 % 10)) (digitChar (n % 10)) = some (n % 100) := by
    have h1 : n % 100 / 10 = n / 10 % 10 := by omega
    have h2 : n % 100 % 10 = n % 10 := by omega
    rw [← h1, ← h2]
    exact digit2_pad2 (n % 100) (by omega)
  simp [digit4, e1, e2]
  omega

/-- The source's normalization loop on a colonless well-formed instant
inserts the colon between the offset hours and minutes. -/
theorem normalizeOffset_renderNoColon (y mo d hh mi ss : Nat) (plusSign : Bool) (oh om : Nat) :
    normalizeOffsetChars (renderNoColon y mo d hh mi ss plusSign oh om).data.length 0
      (renderNoColon y mo d hh mi ss plusSign oh om).data =
      renderColoned y mo d hh mi ss plusSign oh om := by
  cases plusSign <;> rfl

/-- Months are at most 31 days long. -/
theorem daysInMonth_le (y mo : Nat) : daysInMonth y mo ≤ 31 := by
  unfold daysInMonth
  split <;> first | omega | split <;> omega

/-- rfc3339Parse recovers the rendered instant from the coloned form. -/
theorem rfc3339Parse_renderColoned (y mo d hh mi ss oh om : Nat) (plusSign : Bool)
    (hy : y ≤ 9999) (hmo1 : 1 ≤ mo) (hmo2 : mo ≤ 12) (hd1 : 1 ≤ d)
    (hd2 : d ≤ daysInMonth y mo) (hhh : hh ≤ 23) (hmi : mi ≤ 59) (hss : ss ≤ 59)
    (hoh : oh ≤ 23) (hom : om ≤ 59) :
    rfc3339Parse ⟨renderColoned y mo d hh mi ss plusSign oh om⟩ =
      some (renderedInstant y mo d hh mi ss plusSign oh om) := by
  have hdm := daysInMonth_le y mo
  have hrange : 1 ≤ mo ∧ mo ≤ 12 ∧ 1 ≤ d ∧ d ≤ daysInMonth y mo ∧ hh ≤ 23 ∧
      mi ≤ 59 ∧ ss ≤ 59 ∧ oh ≤ 23 ∧ om ≤ 59 :=
    ⟨hmo1, hmo2, hd1, hd2, hhh, hmi, hss, hoh, hom⟩
  cases plusSign <;>
    simp only [renderColoned, pad4, pad2, List.cons_append, List.nil_append,
      Bool.false_eq_true, if_true, if_false, ite_true, ite_false, rfc3339Parse,
      digit4_pad4 y hy, digit2_pad2 mo (by omega : mo ≤ 99),
      digit2_pad2 d (by omega : d ≤ 99), digit2_pad2 hh (by omega : hh ≤ 99),
      digit2_pad2 mi (by omega : mi ≤ 99), digit2_pad2 ss (by omega : ss ≤ 99),
      digit2_pad2 oh (by omega : oh ≤ 99), digit2_pad2 om (by omega : om ≤ 99)] <;>
    simp [hrange, renderedInstant]

/-- C6: on every well-formed start instant whose UTC-offset suffix lacks the
colon separator, TaskDuration normalizes the offset, parses the instant,
and renders hours and (non-zero-padded) minutes-past-the-hour of the
elapsed time now minus the start instant; the bounds keep time.Since below
its saturation limits. -/
theorem taskDuration_wellFormed_noColon
    (y mo d hh mi ss oh om : Nat) (plusSign : Bool) (now : Int)
    (hy : y ≤ 9999) (hmo1 : 1 ≤ mo) (hmo2 : mo ≤ 12) (hd1 : 1 ≤ d)
    (hd2 : d ≤ daysInMonth y mo) (hhh : hh ≤ 23) (hmi : mi ≤ 59) (hss : ss ≤ 59)
    (hoh : oh ≤ 23) (hom : om ≤ 59)
    (hlo : minDurationNs ≤ (now - renderedInstant y mo d hh mi ss plusSign oh om) * 1000000000)
    (hhi : (now - renderedInstant y mo d hh mi ss plusSign oh om) * 1000000000 ≤ maxDurationNs) :
    TaskDurationOf (renderNoColon y mo d hh mi ss plusSign oh om) now =
      toString (Int.tdiv (now - renderedInstant y mo d hh mi ss plusSign oh om) 3600) ++ ":" ++
        toString (Int.tmod
          (Int.tdiv (now - renderedInstant y mo d hh mi ss plusSign oh om) 60) 60) ++
        " h" := by
  have hnorm := normalizeOffset_renderNoColon y mo d hh mi ss plusSign oh om
  have hparse := rfc3339Parse_renderColoned y mo d hh mi ss oh om plusSign
    hy hmo1 hmo2 hd1 hd2 hhh hmi hss hoh hom
  simp only [TaskDurationOf, hnorm, hparse, Option.getD_some,
    if_neg (not_lt.mpr hhi), if_neg (not_lt.mpr hlo),
    tdiv_ns_hour, tdiv_ns_minute]

/-- C6 witness: the spec's example, start 2024-01-01T10:00:00+0000 with now
at 2024-01-01T12:30:00+00:00 (Unix epoch 1704112200), renders 2:30 h. -/
theorem taskDuration_wellFormed_noColon_witness :
    TaskDurationOf "2024-01-01T10:00:00+0000" 1704112200 = "2:30 h" := by
  have h := taskDuration_wellFormed_noColon 2024 1 1 10 0 0 0 0 true 1704112200
    (by norm_num) (by norm_num) (by norm_num) (by norm_num) (by decide)
    (by norm_num) (by norm_num) (by norm_num) (by norm_num) (by norm_num)
    (by decide) (by decide)
  rw [show renderNoColon 2024 1 1 10 0 0 true 0 0 = "2024-01-01T10:00:00+0000" from rfl] at h
  rw [h]
  decide

/-- C7: on an unparseable start instant the formatter silently falls back to
the Go zero time instead of a sentinel: the discarded parse error leaves
TaskDuration with the zero time.Time, time.Since saturates at the maximal
time.Duration, and the rendered string is an enormous bogus duration, not a
dash. -/
theorem taskDuration_malformed_zero_time_output :
    TaskDurationOf "boom" 1704112200 = "2562047:47 h" ∧
    TaskDurationOf "boom" 1704112200 ≠ "—" := by
  constructor <;> decide

/-- C2: after any rebuild, every recent entry present in the menu was
installed by that very rebuild (generation m.gen + 1): RemoveSubMenuItems
discards all entries and click bindings of every earlier rebuild before the
new set goes in, so a click can only reach a current-rebuild listener. -/
theorem setupMenu_retires_previous_rebuild
    (m : TrayMenu) (st : AppState) (recentRes : Except GoErr (List Task))
    (activeRes : Except GoErr Task) (now : Int) (e : MenuEntry)
    (h : e ∈ (SetupMenu m st recentRes activeRes now).1.recentEntries) :
    e.gen = m.gen + 1 := by
  by_cases hid : (GetMenuState st recentRes activeRes).activeTask.Id ≤ 0
  · simp only [SetupMenu, if_pos hid] at h
    exact mem_buildRecentEntries_gen _ _ _ _ h
  · simp only [SetupMenu, if_neg hid] at h
    exact mem_buildRecentEntries_gen _ _ _ _ h

/-- C2 witness: rebuilding over the leftover generation-0 menu leaves only
generation-1 entries; the single produced entry indeed has generation
menu0.gen + 1. -/
theorem setupMenu_retires_previous_rebuild_witness :
    (⟨"[alpha] deploy", 0, 1⟩ : MenuEntry).gen = menu0.gen + 1 :=
  setupMenu_retires_previous_rebuild menu0 state0 (.ok [taskA]) (.error .transport) 0
    ⟨"[alpha] deploy", 0, 1⟩ (by decide)

/-- C3: GetMenuState is a total function into complete states: the stored
recent list depends only on the FetchRecent outcome, the stored active task
only on the FetchActive outcome (so a failure of either fetch never blocks
use of the other), and an empty active array yields the absent active
marker, with no error value ever returned to the caller. -/
theorem getMenuState_total_and_independent
    (st : AppState) (recentRes : Except GoErr (List Task))
    (decodedActive : Except GoErr (List Task)) :
    (GetMenuState st recentRes (FetchActive decodedActive)).recentTasks =
      (match recentRes with
        | .ok recent => recent
        | .error _ => st.recentTasks) ∧
    (GetMenuState st recentRes (FetchActive decodedActive)).activeTask =
      (match FetchActive decodedActive with
        | .ok t => t
        | .error _ => zeroTask) ∧
    (GetMenuState st recentRes (FetchActive (.ok []))).activeTask = zeroTask := by
  refine ⟨?_, ?_, ?_⟩ <;>
    rcases recentRes with e | recent <;>
      rcases decodedActive with e2 | l <;>
        first
          | rfl
          | (rcases l with _ | ⟨t, rest⟩ <;> rfl)

/-- C10: when FetchRecent errs, GetMenuState leaves the stored recent list
exactly as it was (the previous list is preserved, never cleared), while
activeTask is still updated from the independent FetchActive outcome. -/
theorem fetchRecent_error_preserves_previous_list
    (st : AppState) (e : GoErr) (activeRes : Except GoErr Task) :
    (GetMenuState st (.error e) activeRes).recentTasks = st.recentTasks ∧
    (GetMenuState st (.error e) activeRes).activeTask =
      (match activeRes with
        | .ok t => t
        | .error _ => zeroTask) := by
  rcases activeRes with e2 | t <;> exact ⟨rfl, rfl⟩

/-- C8 counterexample: a genuine active task whose remote id is 0 renders
exactly like the no-active-task outcome; SetupMenu produces the identical
menu for both, because absence is the zero Task decided by Id <= 0. -/
theorem active_zero_id_renders_as_absent :
    (SetupMenu menu0 state0 (.ok []) (.ok taskZeroId) 0).1 =
      (SetupMenu menu0 state0 (.ok []) (.error .noActiveTask) 0).1 := by
  decide

/-- C8 amended: the menu decides active-task absence precisely by the sign
test activeTask.Id <= 0 on the zero-Task sentinel: the active group is
enabled exactly when the synchronized activeTask has a positive id. -/
theorem setupMenu_decides_absence_by_id_sign
    (m : TrayMenu) (st : AppState) (recentRes : Except GoErr (List Task))
    (activeRes : Except GoErr Task) (now : Int) :
    (SetupMenu m st recentRes activeRes now).1.activeEnabled =
      decide (0 < (GetMenuState st recentRes activeRes).activeTask.Id) := by
  by_cases hid : (GetMenuState st recentRes activeRes).activeTask.Id ≤ 0
  · have hfalse : ¬ (0 < (GetMenuState st recentRes activeRes).activeTask.Id) := by omega
    simp only [SetupMenu, if_pos hid]
    simp [hfalse]
  · have htrue : 0 < (GetMenuState st recentRes activeRes).activeTask.Id := by omega
    simp only [SetupMenu, if_neg hid]
    simp [htrue]

/-- C9 counterexample: a PATCH completing with status 500 (resp. 404) is
reported as success: RestartTask and StopTask return a nil error without
ever reading the status code, so Dispatch reports true on a non-2xx
completion. -/
theorem dispatch_reports_success_on_non2xx :
    RestartTask cfg0 42 (fun _ => .ok ⟨500, ""⟩) = none ∧
    StopTask cfg0 42 (fun _ => .ok ⟨404, ""⟩) = none :=
  ⟨rfl, rfl⟩

/-- C9 amended: Restart and Stop report success exactly when the transport
completed, whatever status code the response carried; a transport error is
the only reported failure. -/
theorem dispatch_ignores_status_code
    (cfg : Config) (id : Int) (resp : HttpResponse) (e : GoErr) :
    RestartTask cfg id (fun _ => .ok resp) = none ∧
    RestartTask cfg id (fun _ => .error e) = some e ∧
    StopTask cfg id (fun _ => .ok resp) = none ∧
    StopTask cfg id (fun _ => .error e) = some e :=
  ⟨rfl, rfl, rfl, rfl⟩

/-- C1: the click binding reads the task at its captured index out of the
current recentTasks at click time, not the Task value captured at rebuild
time: the single entry built over a list holding only the id-1 task, when
activated after the list has come to hold the id-2 task at that index,
dispatches Restart(2), not Restart(1). -/
theorem recentClick_dispatches_live_index :
    buildRecentEntries 1 0 [taskA] = [⟨"[alpha] deploy", 0, 1⟩] ∧
    taskA.Id = 1 ∧
    (RecentClickHandler ⟨[taskB], zeroTask⟩ ⟨"[alpha] deploy", 0, 1⟩ cfg0
      (fun _ => .ok ⟨200, ""⟩)).1 = some 2 :=
  ⟨rfl, rfl, rfl⟩

/-- C4 counterexample: in the main.go variant a successful Restart dispatch
triggers zero Synchronize+Rebuild pairs, not exactly one: the click
goroutine discards the RestartTask result and never calls SetupMenu. -/
theorem mainGo_dispatch_success_triggers_no_resync :
    MainGo.RecentClickHandler ⟨[taskA], zeroTask⟩ ⟨"[alpha] deploy", 0, 1⟩ cfg0
      (fun _ => .ok ⟨200, ""⟩) = (some 1, 0) :=
  rfl

/-- C4 amended: in the part_000 variant, a Restart or Stop whose PATCH
completes without transport error triggers exactly one SetupMenu
(Synchronize+Rebuild) pair and a transport failure triggers zero, while in
the main.go variant no dispatch outcome ever triggers one. -/
theorem dispatch_resync_pair_counts
    (st : AppState) (e : MenuEntry) (cfg : Config) (resp : HttpResponse)
    (err : GoErr) (t : Task) (h : st.recentTasks[e.boundIdx]? = some t) :
    (RecentClickHandler st e cfg (fun _ => .ok resp)).2 = 1 ∧
    (RecentClickHandler st e cfg (fun _ => .error err)).2 = 0 ∧
    (StopClickHandler st cfg (fun _ => .ok resp)).2 = 1 ∧
    (StopClickHandler st cfg (fun _ => .error err)).2 = 0 ∧
    (MainGo.RecentClickHandler st e cfg (fun _ => .ok resp)).2 = 0 ∧
    (MainGo.StopClickHandler st cfg (fun _ => .ok resp)).2 = 0 := by
  refine ⟨?_, ?_, ?_, ?_, ?_, ?_⟩ <;>
    simp [RecentClickHandler, StopClickHandler, MainGo.RecentClickHandler,
      MainGo.StopClickHandler, RestartTask, StopTask, h]

/-- C4 witness: the in-range single-entry state, successful transport:
exactly one resynchronization is triggered. -/
theorem dispatch_resync_pair_counts_witness :
    (RecentClickHandler ⟨[taskA], zeroTask⟩ ⟨"[alpha] deploy", 0, 1⟩ cfg0
      (fun _ => .ok ⟨200, ""⟩)).2 = 1 :=
  (dispatch_resync_pair_counts ⟨[taskA], zeroTask⟩ ⟨"[alpha] deploy", 0, 1⟩ cfg0
    ⟨200, ""⟩ .transport taskA rfl).1

/-- C5: in the main.go variant the rebuild does not produce n recent entries
for n < 10: its title loop reads slots 0 through 9 unconditionally, an
index out of range panic on an empty or one-element recent list, while the
part_000 loop yields exactly n entries (zero on the empty list). -/
theorem mainGo_setTitles_panics_below_ten :
    MainGo.SetTitles [] = none ∧
    MainGo.SetTitles [taskA] = none ∧
    buildRecentEntries 1 0 [] = [] := by
  refine ⟨by decide, by decide, rfl⟩

end Qckm
